import Mathlib

/-!
Shallow embedding of `src/glTFcomp/scripts/gltfcmp.py` (a Blender export
add-on) and proofs about the claims of its specification.

Conventions of the embedding:
* Python floats / numpy float32 values are modelled as exact rationals `ℚ`;
  every arithmetic step of the source is reproduced on these rationals.
* Blender / numpy / os library calls that the source delegates to are
  modelled explicitly: `bpy` data is snapshotted into plain structures,
  `numpy` array operations become list operations, and the path functions
  `os.path.dirname` and `os.path.normpath ∘ bpy.path.abspath` are abstract
  `String → String` parameters (the source only pipes their results
  through).
* The mesh handed to `extract_data` is modelled as the state observed
  through Blender's API after the `bmesh` triangulate pass and
  `calc_loop_triangles`: each entry of `loop_triangles` carries exactly
  three vertex indices, `loops` carries the split normals, and
  `uv_layers` is the active UV layer's per-loop data when the collection
  is non-empty.
-/

namespace Gltfcmp

/-- A 3-component vector (positions, normals, colors). -/
structure Vec3 where
  x : ℚ
  y : ℚ
  z : ℚ
deriving DecidableEq, Repr

/-- A 2-component vector (UV coordinates). -/
structure Vec2 where
  u : ℚ
  v : ℚ
deriving DecidableEq, Repr

/-- One `TEX_IMAGE` node's image datablock as read by `get_texture_data`:
`img.filepath` (empty string when unset), `img.packed_file` (whether packed
data is present), `img.size = (width, height)`, `img.channels`, and
`img.pixels`, the flat row-major float pixel buffer. -/
structure BImage where
  name : String
  filepath : String
  packed_file : Bool
  size : Nat × Nat
  channels : Nat
  pixels : List ℚ
deriving DecidableEq, Repr

/-- A shader node as inspected by `get_texture_data`: only its `type`
string and its optional `image` are read. -/
structure BNode where
  type : String
  image : Option BImage
deriving DecidableEq, Repr

/-- A Blender material as read by the source: `name`, `diffuse_color`
(list of components, of which `[:3]` is taken), `metallic` and `roughness`
(`none` models the attribute being absent, the `getattr` default case),
`use_nodes` and the node list of its node tree. -/
structure BMaterial where
  name : String
  diffuse_color : List ℚ
  metallic : Option ℚ
  roughness : Option ℚ
  use_nodes : Bool
  nodes : List BNode
deriving DecidableEq, Repr

/-- The evaluated, triangulated mesh state read by `extract_data` and
`get_texture_data`: vertex positions, per-loop split normals, the
`loop_triangles` (each exactly three vertex indices), the active UV
layer's per-loop data when a UV layer exists, and the material slot list
(`none` models an empty slot). -/
structure BMesh where
  vertices : List Vec3
  loops : List Vec3
  loop_triangles : List (Nat × Nat × Nat)
  uv_layers : Option (List Vec2)
  materials : List (Option BMaterial)
deriving DecidableEq, Repr

/-- A scene object: its `name`, its `type` string (`"MESH"` for mesh
objects) and its mesh data. -/
structure BObject where
  name : String
  type : String
  mesh : BMesh
deriving DecidableEq, Repr

/-- One entry of the `materials` list built by `extract_data`
(lines 50-58): name, `diffuse_color[:3]`, and metallic / roughness with
`getattr` defaults `0.0` / `0.5`. -/
structure MaterialRecord where
  name : String
  base_color : List ℚ
  metallic : ℚ
  roughness : ℚ
deriving DecidableEq, Repr

/-- The dictionary returned by `extract_data` (lines 60-67). -/
structure MeshData where
  vertices : List Vec3
  normals : List Vec3
  indices : List Nat
  uvs : Option (List Vec2)
  materials : List MaterialRecord
  name : String
deriving DecidableEq, Repr

/-- Flattening of the `(n, 3)` triangle-index array
(`np.array([tri.vertices for tri in mesh.loop_triangles]).flatten()`,
line 43). -/
def tri_indices : List (Nat × Nat × Nat) → List Nat
  | [] => []
  | t :: ts => t.1 :: t.2.1 :: t.2.2 :: tri_indices ts

/-- The material record built for one non-empty slot (lines 53-57):
`getattr(mat, "metallic", 0.0)` and `getattr(mat, "roughness", 0.5)`. -/
def mat_record (m : BMaterial) : MaterialRecord :=
  { name := m.name
    base_color := m.diffuse_color.take 3
    metallic := m.metallic.getD 0
    roughness := m.roughness.getD (1/2) }

/-- `extract_data` (lines 25-71): for a `"MESH"`-typed object it returns
the dictionary of vertex positions, per-loop split normals, flattened
triangle indices, optional UVs and the filtered material list; for any
other object type it falls through to `return None`.  No index validation
of any kind is performed. -/
def extract_data (obj : BObject) : Option MeshData :=
  if obj.type = "MESH" then
    some
      { vertices := obj.mesh.vertices
        normals := obj.mesh.loops
        indices := tri_indices obj.mesh.loop_triangles
        uvs := obj.mesh.uv_layers
        materials := obj.mesh.materials.filterMap (Option.map mat_record)
        name := obj.name }
  else none

/-- The texture records built by `get_texture_data` (lines 82-104): a
`file` record carries the normalized absolute path and logical name; a
`packed` record carries name, width, height, channels and the decoded
byte buffer. -/
inductive TexRecord where
  | file (path : String) (name : String)
  | packed (name : String) (width : Nat) (height : Nat) (channels : Nat)
      (data : List Nat)
deriving DecidableEq, Repr

/-- Model of numpy's `.astype(np.uint8)` applied to a float value: C-style
truncation toward zero followed by wraparound modulo 256.  For the
nonnegative values the source feeds it, truncation toward zero coincides
with the floor taken here. -/
def np_uint8_cast (q : ℚ) : Nat := (⌊q⌋).toNat % 256

/-- Decoding of a packed image's float pixel buffer (lines 93-96):
`(pixels * 255).astype(np.uint8)`, elementwise over the flat row-major
buffer (the `reshape((height, width, channels))` does not reorder the
underlying data). -/
def decode_pixels (pixels : List ℚ) : List Nat :=
  pixels.map (fun p => np_uint8_cast (p * 255))

/-- Resolution of one image node's image (lines 84-106).  `pathfix`
models `os.path.normpath (bpy.path.abspath ·)`.  The `if img.filepath:`
branch (non-empty path string) precedes the `elif img.packed_file:`
branch; an image with neither yields `none` (the `if tex:` guard drops
the empty dict). -/
def resolve_image (pathfix : String → String) (img : BImage) :
    Option TexRecord :=
  if img.filepath ≠ "" then
    some (.file (pathfix img.filepath) img.name)
  else if img.packed_file then
    some (.packed img.name img.size.1 img.size.2 img.channels
      (decode_pixels img.pixels))
  else none

/-- `get_texture_data` (lines 73-107): for each non-empty material slot
whose material has `use_nodes`, every node of type `"TEX_IMAGE"` with an
image contributes its resolved record, in slot order then node order.
The early `return []` on an empty material list coincides with the loop
producing nothing. -/
def get_texture_data (pathfix : String → String) (obj : BObject) :
    List TexRecord :=
  (obj.mesh.materials.map (fun slot =>
    match slot with
    | none => []
    | some mat =>
      if mat.use_nodes then
        mat.nodes.filterMap (fun node =>
          if node.type = "TEX_IMAGE" then
            node.image.bind (resolve_image pathfix)
          else none)
      else [])).flatten

/-- The compression options of the operator (lines 127-157), passed as the
trailing arguments of the backend call. -/
structure CompressionOptions where
  use_draco : Bool
  draco_level : Int
  use_jpeg : Bool
  jpeg_quality : Int
  use_zip : Bool
deriving DecidableEq, Repr

/-- Blender `IntProperty` semantics for the `min=`/`max=` bounds declared
on `draco_level` (lines 133-138) and `jpeg_quality` (lines 146-151): any
assigned value is hard-clamped into `[lo, hi]` by the property system
before it can be read back. -/
def int_prop_clamp (lo hi v : Int) : Int := max lo (min hi v)

/-- The operator's option state after the property system stored the
requested values: `draco_level` clamped into 1..9, `jpeg_quality` clamped
into 1..100, the booleans stored as-is. -/
def mk_options (use_draco : Bool) (draco_req : Int) (use_jpeg : Bool)
    (jpeg_req : Int) (use_zip : Bool) : CompressionOptions :=
  { use_draco := use_draco
    draco_level := int_prop_clamp 1 9 draco_req
    use_jpeg := use_jpeg
    jpeg_quality := int_prop_clamp 1 100 jpeg_req
    use_zip := use_zip }

/-- One invocation of `m.ReadBlenderData` (lines 182-192) with the exact
arguments the source passes: one object's mesh dictionary, the export
folder, the file path, that object's texture list, and the options. -/
structure BackendCall where
  mesh_data : MeshData
  export_folder : String
  filepath : String
  textures : List TexRecord
  opts : CompressionOptions
deriving DecidableEq, Repr

/-- A `self.report` message: `{'ERROR'}` or `{'INFO'}` with its text. -/
inductive Report where
  | error (msg : String)
  | info (msg : String)
deriving DecidableEq, Repr

/-- The operator return set: `{'CANCELLED'}` or `{'FINISHED'}`. -/
inductive ExecResult where
  | CANCELLED
  | FINISHED
deriving DecidableEq, Repr

/-- Everything observable about one `execute` run: its return value, the
reports issued, the backend calls made in order, the directories passed
to `os.makedirs`, and the names of the mesh objects whose extraction was
invoked, in processing order. -/
structure ExecOutcome where
  result : ExecResult
  reports : List Report
  calls : List BackendCall
  dirs_created : List String
  processed : List String
deriving DecidableEq, Repr

/-- The scene data `execute` draws its object set from:
`context.scene.objects` and `context.selected_objects`. -/
structure Context where
  scene_objects : List BObject
  selected_objects : List BObject
deriving DecidableEq, Repr

/-- The body of the object loop (lines 171-192) for one object: non-mesh
objects are skipped, `extract_data` is consulted (`if not mesh_data:
continue` — `none` is the only falsy value it can produce, a returned
dictionary is never empty), and otherwise one backend call is assembled
from this object's data alone. -/
def per_object_call (pathfix : String → String)
    (export_folder filepath : String) (opts : CompressionOptions)
    (obj : BObject) : Option BackendCall :=
  if obj.type ≠ "MESH" then none
  else
    match extract_data obj with
    | none => none
    | some md =>
      some
        { mesh_data := md
          export_folder := export_folder
          filepath := filepath
          textures := get_texture_data pathfix obj
          opts := opts }

/-- `EXPORT_SCENE_OT_compgltf.execute` (lines 159-195).  `load` is the
outcome of `load_glTFCompL_module()`: on `ImportError` the method reports
one error and returns `{'CANCELLED'}` before touching any object or the
filesystem.  Otherwise the object set is chosen by `export_selected`,
`os.makedirs(os.path.dirname(filepath))` runs once, the loop issues one
backend call per surviving object, and a single `'INFO'` report precedes
`{'FINISHED'}`. -/
def execute (load : Except String Unit) (pathfix dirname : String → String)
    (ctx : Context) (export_selected : Bool) (filepath : String)
    (opts : CompressionOptions) : ExecOutcome :=
  match load with
  | .error e =>
    { result := .CANCELLED
      reports := [.error ("Could not import glTFCompL: " ++ e)]
      calls := []
      dirs_created := []
      processed := [] }
  | .ok _ =>
    let objects := if export_selected then ctx.selected_objects
                   else ctx.scene_objects
    let export_folder := dirname filepath
    { result := .FINISHED
      reports := [.info ("Export complete: " ++ filepath)]
      calls := objects.filterMap
        (per_object_call pathfix export_folder filepath opts)
      dirs_created := [export_folder]
      processed := (objects.filter (fun o => o.type = "MESH")).map
        (fun o => o.name) }

/-- Modelled from the spec's decoding formula, for comparison with the
source's `decode_pixels`: `byte = round(clamp(float_value, 0, 1) * 255)`
(spec §4.4). -/
def spec_decode_byte (q : ℚ) : Nat := (round (min 1 (max 0 q) * 255)).toNat

/-! Concrete fixtures used by counterexamples and witnesses. -/

/-- The identity on strings, used to instantiate the abstract path
functions in concrete runs. -/
def idpf : String → String := fun s => s

/-- The operator's default option values (lines 127-157). -/
def defOpts : CompressionOptions := mk_options true 5 true 75 false

/-- A minimal well-formed mesh object: one vertex, one triangle. -/
def objA : BObject :=
  { name := "A"
    type := "MESH"
    mesh :=
      { vertices := [⟨0, 0, 0⟩]
        loops := [⟨0, 0, 1⟩, ⟨0, 0, 1⟩, ⟨0, 0, 1⟩]
        loop_triangles := [(0, 0, 0)]
        uv_layers := none
        materials := [] } }

/-- A second minimal well-formed mesh object. -/
def objB : BObject :=
  { name := "B"
    type := "MESH"
    mesh :=
      { vertices := [⟨1, 0, 0⟩]
        loops := [⟨0, 0, 1⟩, ⟨0, 0, 1⟩, ⟨0, 0, 1⟩]
        loop_triangles := [(0, 0, 0)]
        uv_layers := none
        materials := [] } }

/-- The record `extract_data` produces for `objA`. -/
def mdA : MeshData :=
  { vertices := [⟨0, 0, 0⟩]
    normals := [⟨0, 0, 1⟩, ⟨0, 0, 1⟩, ⟨0, 0, 1⟩]
    indices := [0, 0, 0]
    uvs := none
    materials := []
    name := "A" }

/-- A mesh object with zero vertices and zero triangles. -/
def objEmpty : BObject :=
  { name := "E"
    type := "MESH"
    mesh :=
      { vertices := []
        loops := []
        loop_triangles := []
        uv_layers := none
        materials := [] } }

/-- A mesh object with malformed topology: one vertex but a triangle
referencing the out-of-range position indices 5 and 7. -/
def objBad : BObject :=
  { name := "Bad"
    type := "MESH"
    mesh :=
      { vertices := [⟨0, 0, 0⟩]
        loops := [⟨0, 0, 1⟩, ⟨0, 0, 1⟩, ⟨0, 0, 1⟩]
        loop_triangles := [(0, 5, 7)]
        uv_layers := none
        materials := [] } }

/-- A mesh object with two bitwise-identical vertices, both referenced by
its single triangle. -/
def objDup : BObject :=
  { name := "Dup"
    type := "MESH"
    mesh :=
      { vertices := [⟨0, 0, 0⟩, ⟨0, 0, 0⟩]
        loops := [⟨0, 0, 1⟩, ⟨0, 0, 1⟩, ⟨0, 0, 1⟩]
        loop_triangles := [(0, 1, 0)]
        uv_layers := none
        materials := [] } }

/-- An embedded 1×1 single-channel image whose stored float value is
exactly 1/2. -/
def imgHalf : BImage :=
  { name := "img"
    filepath := ""
    packed_file := true
    size := (1, 1)
    channels := 1
    pixels := [1/2] }

/-- An image that has both a non-empty file path and packed pixel data. -/
def imgBoth : BImage :=
  { name := "both"
    filepath := "tex.png"
    packed_file := true
    size := (1, 1)
    channels := 1
    pixels := [1/2] }

/-- A material whose metallic and roughness attributes are both absent. -/
def matDefaults : BMaterial :=
  { name := "m1"
    diffuse_color := [4/5, 1/5, 1/5, 1]
    metallic := none
    roughness := none
    use_nodes := false
    nodes := [] }

/-- A material with explicit metallic and roughness values. -/
def matFull : BMaterial :=
  { name := "m2"
    diffuse_color := [1, 1, 1]
    metallic := some (3/10)
    roughness := some (7/10)
    use_nodes := false
    nodes := [] }

/-- A mesh object with an empty slot between two assigned materials. -/
def objMat : BObject :=
  { name := "M"
    type := "MESH"
    mesh :=
      { vertices := [⟨0, 0, 0⟩]
        loops := [⟨0, 0, 1⟩, ⟨0, 0, 1⟩, ⟨0, 0, 1⟩]
        loop_triangles := [(0, 0, 0)]
        uv_layers := none
        materials := [some matDefaults, none, some matFull] } }

/-- The backend call `execute` makes for `objA` in a scene exported to
`"o.gltf"` with the default options. -/
def callA : BackendCall :=
  { mesh_data := mdA
    export_folder := "o.gltf"
    filepath := "o.gltf"
    textures := []
    opts := defOpts }

/-- The backend call `execute` makes for `objA` when the requested option
values 0 and 1000 have been clamped by the property system. -/
def callClamped : BackendCall :=
  { mesh_data := mdA
    export_folder := "o.gltf"
    filepath := "o.gltf"
    textures := []
    opts := mk_options true 0 true 1000 false }

/-! Helper lemmas shared across the claim theorems. -/

/-- Flattening the `(n, 3)` triangle array yields `3 n` indices. -/
theorem tri_indices_length (ts : List (Nat × Nat × Nat)) :
    (tri_indices ts).length = 3 * ts.length := by
  induction ts with
  | nil => rfl
  | cons t ts ih => simp [tri_indices, ih]; ring

/-- Every flattened index is a component of some source triangle. -/
theorem mem_tri_indices {i : Nat} {ts : List (Nat × Nat × Nat)}
    (h : i ∈ tri_indices ts) :
    ∃ t ∈ ts, i = t.1 ∨ i = t.2.1 ∨ i = t.2.2 := by
  induction ts with
  | nil => cases h
  | cons t ts ih =>
    simp only [tri_indices, List.mem_cons] at h
    rcases h with h | h | h | h
    · exact ⟨t, List.mem_cons_self t ts, Or.inl h⟩
    · exact ⟨t, List.mem_cons_self t ts, Or.inr (Or.inl h)⟩
    · exact ⟨t, List.mem_cons_self t ts, Or.inr (Or.inr h)⟩
    · rcases ih h with ⟨u, hu, hi⟩
      exact ⟨u, List.mem_cons_of_mem t hu, hi⟩

/-- Filtering-while-mapping the slot list equals filtering then mapping. -/
theorem filterMap_map_mat (l : List (Option BMaterial)) :
    l.filterMap (Option.map mat_record)
      = (l.filterMap id).map mat_record := by
  induction l with
  | nil => rfl
  | cons slot l ih =>
    cases slot <;> simp [List.filterMap_cons, ih]

/-- The per-object loop body copies the export folder, file path and
options into every call it emits. -/
theorem per_object_call_fields {pf : String → String}
    {ef fp : String} {opts : CompressionOptions} {obj : BObject}
    {c : BackendCall} (h : per_object_call pf ef fp opts obj = some c) :
    c.opts = opts ∧ c.filepath = fp ∧ c.export_folder = ef := by
  unfold per_object_call at h
  split at h
  · exact absurd h (by simp)
  · split at h
    · exact absurd h (by simp)
    · cases h; exact ⟨rfl, rfl, rfl⟩

/-- The loop emits exactly one call per `"MESH"`-typed object: extraction
never yields `None` for a mesh object, so nothing else is filtered out. -/
theorem calls_length_eq (pf : String → String) (ef fp : String)
    (opts : CompressionOptions) (l : List BObject) :
    (l.filterMap (per_object_call pf ef fp opts)).length
      = (l.filter (fun o => o.type = "MESH")).length := by
  induction l with
  | nil => rfl
  | cons obj l ih =>
    by_cases h : obj.type = "MESH"
    · have hsome : per_object_call pf ef fp opts obj
          = some
            { mesh_data :=
                { vertices := obj.mesh.vertices
                  normals := obj.mesh.loops
                  indices := tri_indices obj.mesh.loop_triangles
                  uvs := obj.mesh.uv_layers
                  materials :=
                    obj.mesh.materials.filterMap (Option.map mat_record)
                  name := obj.name }
              export_folder := ef
              filepath := fp
              textures := get_texture_data pf obj
              opts := opts } := by
        unfold per_object_call extract_data
        simp [h]
      simp [List.filterMap_cons, List.filter_cons, hsome, h, ih]
    · have hnone : per_object_call pf ef fp opts obj = none := by
        unfold per_object_call
        simp [h]
      simp [List.filterMap_cons, List.filter_cons, hnone, h, ih]

/-! Claim theorems. -/

/-- C1 counterexample: a scene with the two mesh objects `objA` and
`objB` makes the backend entry point `ReadBlenderData` run twice — once
per mesh object, inside the loop — not exactly once per export
invocation, and each call carries a single object's mesh record. -/
theorem C1_counterexample :
    (execute (.ok ()) idpf idpf ⟨[objA, objB], []⟩ false "o.gltf"
        defOpts).calls.length = 2 ∧ (2 : Nat) ≠ 1 := by
  constructor
  · rfl
  · decide

/-- C1 amended: the orchestrator invokes the backend once per
`"MESH"`-typed object of the exported set (extraction never yields `None`
for a mesh object), and every call carries the shared options, file path
and export folder. -/
theorem C1_amended_one_call_per_mesh_object (pf dn : String → String)
    (ctx : Context) (sel : Bool) (fp : String)
    (opts : CompressionOptions) :
    (execute (.ok ()) pf dn ctx sel fp opts).calls.length
      = ((if sel then ctx.selected_objects else ctx.scene_objects).filter
          (fun o => o.type = "MESH")).length ∧
    ∀ c ∈ (execute (.ok ()) pf dn ctx sel fp opts).calls,
      c.opts = opts ∧ c.filepath = fp ∧ c.export_folder = dn fp := by
  constructor
  · exact calls_length_eq pf (dn fp) fp opts _
  · intro c hc
    simp only [execute, List.mem_filterMap] at hc
    rcases hc with ⟨obj, _, hobj⟩
    exact per_object_call_fields hobj

/-- C1 amended, witnessed at a concrete two-mesh scene: two backend
calls, and the call for `objA` carries the shared options. -/
theorem C1_amended_witness :
    (execute (.ok ()) idpf idpf ⟨[objA, objB], []⟩ false "o.gltf"
        defOpts).calls.length
      = (([objA, objB]).filter (fun o => o.type = "MESH")).length ∧
    callA.opts = defOpts :=
  ⟨(C1_amended_one_call_per_mesh_object idpf idpf ⟨[objA, objB], []⟩ false
      "o.gltf" defOpts).1,
   ((C1_amended_one_call_per_mesh_object idpf idpf ⟨[objA, objB], []⟩ false
      "o.gltf" defOpts).2 callA (by decide)).1⟩

/-- C2 counterexample: `extract_data` on a mesh object with zero vertices
and zero triangles returns a (truthy) record, not an empty result, and an
export of a scene holding only that object makes one backend call instead
of skipping the object. -/
theorem C2_counterexample :
    extract_data objEmpty ≠ none ∧
    (execute (.ok ()) idpf idpf ⟨[objEmpty], []⟩ false "o.gltf"
        defOpts).calls.length = 1 := by
  constructor
  · decide
  · rfl

/-- C2 amended: a mesh object with zero vertices and zero triangles
yields a record whose buffers are empty (not an empty result); the
orchestrator does not skip it — the record produces a backend call — and
the export still completes with `{'FINISHED'}`. -/
theorem C2_amended_empty_mesh_not_skipped (obj : BObject)
    (h : obj.type = "MESH") (hv : obj.mesh.vertices = [])
    (ht : obj.mesh.loop_triangles = []) :
    (extract_data obj).isSome = true ∧
    (extract_data obj).map MeshData.vertices = some [] ∧
    (extract_data obj).map MeshData.indices = some [] ∧
    ∀ pf dn fp opts,
      (execute (.ok ()) pf dn ⟨[obj], [obj]⟩ false fp opts).result
          = .FINISHED ∧
      (execute (.ok ()) pf dn ⟨[obj], [obj]⟩ false fp
          opts).calls.length = 1 := by
  refine ⟨by simp [extract_data, h], by simp [extract_data, h, hv],
    by simp [extract_data, h, ht, tri_indices], ?_⟩
  intro pf dn fp opts
  refine ⟨rfl, ?_⟩
  show (List.filterMap _ [obj]).length = 1
  rw [calls_length_eq]
  simp [List.filter_cons, h]

/-- C2 amended, witnessed on the concrete empty mesh object. -/
theorem C2_amended_witness :
    (extract_data objEmpty).isSome = true ∧
    (extract_data objEmpty).map MeshData.vertices = some [] ∧
    (extract_data objEmpty).map MeshData.indices = some [] ∧
    (execute (.ok ()) idpf idpf ⟨[objEmpty], [objEmpty]⟩ false "o.gltf"
        defOpts).result = .FINISHED ∧
    (execute (.ok ()) idpf idpf ⟨[objEmpty], [objEmpty]⟩ false "o.gltf"
        defOpts).calls.length = 1 := by
  have h := C2_amended_empty_mesh_not_skipped objEmpty rfl rfl rfl
  exact ⟨h.1, h.2.1, h.2.2.1, (h.2.2.2 idpf idpf "o.gltf" defOpts).1,
    (h.2.2.2 idpf idpf "o.gltf" defOpts).2⟩

/-- C4: when loading the compression module raises `ImportError`, the
whole export is aborted before any object is processed: exactly one
error report is issued, no backend call is made, no directory is created,
and the operator returns `{'CANCELLED'}`. -/
theorem C4_backend_unavailable_aborts (e : String)
    (pf dn : String → String) (ctx : Context) (sel : Bool) (fp : String)
    (opts : CompressionOptions) :
    (execute (.error e) pf dn ctx sel fp opts).result = .CANCELLED ∧
    (execute (.error e) pf dn ctx sel fp opts).reports
      = [.error ("Could not import glTFCompL: " ++ e)] ∧
    (execute (.error e) pf dn ctx sel fp opts).calls = [] ∧
    (execute (.error e) pf dn ctx sel fp opts).dirs_created = [] ∧
    (execute (.error e) pf dn ctx sel fp opts).processed = [] :=
  ⟨rfl, rfl, rfl, rfl, rfl⟩

/-- C3 counterexample: for the embedded image whose single stored float
channel value is 1/2, the source decodes the byte 127
(`(0.5 * 255).astype(np.uint8)` truncates 127.5), while the spec's
formula `round(clamp(0.5, 0, 1) * 255)` gives 128. -/
theorem C3_counterexample :
    resolve_image idpf imgHalf = some (.packed "img" 1 1 1 [127]) ∧
    spec_decode_byte (1/2) = 128 ∧ (127 : Nat) ≠ 128 := by
  have hb : np_uint8_cast ((2⁻¹ : ℚ) * 255) = 127 := by
    have hf : ⌊((2⁻¹ : ℚ) * 255)⌋ = 127 := by norm_num
    rw [np_uint8_cast, hf]
    decide
  refine ⟨?_, ?_, by decide⟩
  · simp [resolve_image, imgHalf, decode_pixels, idpf, hb]
  · have h1 : (min 1 (max 0 (1/2 : ℚ)) * 255) = 255/2 := by norm_num
    rw [spec_decode_byte, h1]
    have h2 : round ((255 : ℚ)/2) = 128 := by norm_num [round_eq]
    rw [h2]
    decide

/-- C3 amended: each decoded output byte is the stored float value times
255, truncated toward zero and wrapped modulo 256 (no clamping, no
rounding); the image's native channel count and flat row-major
(height, width, channels) layout are preserved, byte `i` of the buffer
corresponding to stored value `i`, and the buffer length equals
width × height × channels. -/
theorem C3_amended_truncating_decode (pf : String → String) (img : BImage)
    (hf : img.filepath = "") (hp : img.packed_file = true)
    (hlen : img.pixels.length = img.size.1 * img.size.2 * img.channels) :
    resolve_image pf img
      = some (.packed img.name img.size.1 img.size.2 img.channels
          (img.pixels.map (fun p => (⌊p * 255⌋).toNat % 256))) ∧
    (img.pixels.map (fun p => (⌊p * 255⌋).toNat % 256)).length
      = img.size.1 * img.size.2 * img.channels := by
  constructor
  · simp [resolve_image, hf, hp, decode_pixels, np_uint8_cast]
  · simpa using hlen

/-- C3 amended, witnessed on the concrete 1×1 image storing 1/2. -/
theorem C3_amended_witness :
    resolve_image idpf imgHalf
      = some (.packed imgHalf.name imgHalf.size.1 imgHalf.size.2
          imgHalf.channels
          (imgHalf.pixels.map (fun p => (⌊p * 255⌋).toNat % 256))) ∧
    (imgHalf.pixels.map (fun p => (⌊p * 255⌋).toNat % 256)).length
      = imgHalf.size.1 * imgHalf.size.2 * imgHalf.channels :=
  C3_amended_truncating_decode idpf imgHalf rfl rfl rfl

/-- C5 counterexample: for the mesh object whose single triangle
references the out-of-range position indices 5 and 7 against a
one-vertex vertex set, extraction does not fail — the malformed indices
are returned verbatim — the export issues no warning (only the final
info report), and the malformed record is passed to the backend. -/
theorem C5_counterexample :
    (extract_data objBad).map MeshData.indices = some [0, 5, 7] ∧
    objBad.mesh.vertices.length = 1 ∧
    (execute (.ok ()) idpf idpf ⟨[objBad], []⟩ false "o.gltf"
        defOpts).reports = [.info "Export complete: o.gltf"] ∧
    (execute (.ok ()) idpf idpf ⟨[objBad], []⟩ false "o.gltf"
        defOpts).calls.length = 1 := by
  refine ⟨by decide, by decide, rfl, rfl⟩

/-- C5 amended: extraction performs no validation at all — for every
mesh object it succeeds and hands the triangle indices through verbatim,
malformed or not — and a run whose module load succeeded always ends in
exactly the single final info report, so no per-object warning is ever
issued and no object is skipped on account of malformed data. -/
theorem C5_amended_no_validation (obj : BObject)
    (h : obj.type = "MESH") :
    (extract_data obj).map MeshData.indices
      = some (tri_indices obj.mesh.loop_triangles) ∧
    ∀ (pf dn : String → String) (ctx : Context) (sel : Bool)
      (fp : String) (opts : CompressionOptions),
      (execute (.ok ()) pf dn ctx sel fp opts).reports
        = [.info ("Export complete: " ++ fp)] := by
  exact ⟨by simp [extract_data, h], fun pf dn ctx sel fp opts => rfl⟩

/-- C5 amended, witnessed on the malformed object. -/
theorem C5_amended_witness :
    (extract_data objBad).map MeshData.indices
      = some (tri_indices objBad.mesh.loop_triangles) ∧
    (execute (.ok ()) idpf idpf ⟨[objBad], []⟩ false "o.gltf"
        defOpts).reports = [.info ("Export complete: " ++ "o.gltf")] :=
  ⟨(C5_amended_no_validation objBad rfl).1,
   (C5_amended_no_validation objBad rfl).2 idpf idpf ⟨[objBad], []⟩ false
     "o.gltf" defOpts⟩

/-- C6: whatever values are assigned to the `draco_level` and
`jpeg_quality` properties, the property system's hard `min`/`max` clamp
ensures no backend call ever receives an out-of-range value: every call
carries `draco_level` in 1..9 and `jpeg_quality` in 1..100. -/
theorem C6_options_in_range_at_backend (load : Except String Unit)
    (pf dn : String → String) (ctx : Context) (sel : Bool) (fp : String)
    (ud : Bool) (dr : Int) (uj : Bool) (jq : Int) (uz : Bool) :
    ∀ c ∈ (execute load pf dn ctx sel fp
        (mk_options ud dr uj jq uz)).calls,
      1 ≤ c.opts.draco_level ∧ c.opts.draco_level ≤ 9 ∧
      1 ≤ c.opts.jpeg_quality ∧ c.opts.jpeg_quality ≤ 100 := by
  intro c hc
  have hopts : c.opts = mk_options ud dr uj jq uz := by
    cases load with
    | error e => exact absurd hc (by simp [execute])
    | ok u =>
      simp only [execute, List.mem_filterMap] at hc
      rcases hc with ⟨obj, _, hobj⟩
      exact (per_object_call_fields hobj).1
  rw [hopts]
  unfold mk_options int_prop_clamp
  exact ⟨le_max_left _ _, max_le (by norm_num) (min_le_left _ _),
    le_max_left _ _, max_le (by norm_num) (min_le_left _ _)⟩

/-- C6, witnessed at a run requesting the out-of-range values
`draco_level = 0` and `jpeg_quality = 1000`: the backend call for `objA`
receives values inside the documented ranges. -/
theorem C6_witness :
    1 ≤ callClamped.opts.draco_level ∧ callClamped.opts.draco_level ≤ 9 ∧
    1 ≤ callClamped.opts.jpeg_quality ∧
    callClamped.opts.jpeg_quality ≤ 100 :=
  C6_options_in_range_at_backend (.ok ()) idpf idpf ⟨[objA], []⟩ false
    "o.gltf" true 0 true 1000 false callClamped (by decide)

/-- C7: material collection keeps exactly the non-empty slots, in slot
order; an absent metallic attribute defaults to 0 and an absent
roughness attribute defaults to 1/2; a mesh with zero material slots
yields the empty list. -/
theorem C7_material_collection (obj : BObject) (h : obj.type = "MESH") :
    (extract_data obj).map MeshData.materials
      = some ((obj.mesh.materials.filterMap id).map mat_record) ∧
    (obj.mesh.materials = [] →
      (extract_data obj).map MeshData.materials = some []) ∧
    ∀ m : BMaterial,
      (m.metallic = none → (mat_record m).metallic = 0) ∧
      (m.roughness = none → (mat_record m).roughness = 1/2) := by
  refine ⟨by simp [extract_data, h, filterMap_map_mat], ?_, ?_⟩
  · intro he
    simp [extract_data, h, he]
  · intro m
    exact ⟨fun hm => by simp [mat_record, hm],
      fun hr => by simp [mat_record, hr]⟩

/-- C7, witnessed on a mesh whose slots are a defaults-lacking material,
an empty slot, and a fully specified material. -/
theorem C7_witness :
    (extract_data objMat).map MeshData.materials
      = some ((objMat.mesh.materials.filterMap id).map mat_record) ∧
    (mat_record matDefaults).metallic = 0 ∧
    (mat_record matDefaults).roughness = 1/2 :=
  ⟨(C7_material_collection objMat rfl).1,
   ((C7_material_collection objMat rfl).2.2 matDefaults).1 rfl,
   ((C7_material_collection objMat rfl).2.2 matDefaults).2 rfl⟩

/-- C8: for a mesh whose triangles reference positions inside the vertex
set — the host's topology contract — every entry of the extracted index
buffer is below the vertex buffer length, and the index buffer length is
always a multiple of three. -/
theorem C8_index_invariants (obj : BObject) (md : MeshData)
    (he : extract_data obj = some md)
    (hv : ∀ t ∈ obj.mesh.loop_triangles,
      t.1 < obj.mesh.vertices.length ∧
      t.2.1 < obj.mesh.vertices.length ∧
      t.2.2 < obj.mesh.vertices.length) :
    (∀ i ∈ md.indices, i < md.vertices.length) ∧
    md.indices.length % 3 = 0 := by
  have hobj : obj.type = "MESH" := by
    by_contra hne
    simp [extract_data, hne] at he
  simp only [extract_data, if_pos hobj, Option.some.injEq] at he
  subst he
  constructor
  · intro i hi
    rcases mem_tri_indices hi with ⟨t, ht, hcase⟩
    rcases hv t ht with ⟨h1, h2, h3⟩
    rcases hcase with rfl | rfl | rfl
    · exact h1
    · exact h2
    · exact h3
  · show (tri_indices obj.mesh.loop_triangles).length % 3 = 0
    rw [tri_indices_length]
    omega

/-- C8, witnessed on the concrete one-triangle mesh `objA`. -/
theorem C8_witness :
    (0 : Nat) < mdA.vertices.length ∧ mdA.indices.length % 3 = 0 :=
  ⟨(C8_index_invariants objA mdA (by decide) (by decide)).1 0 (by decide),
   (C8_index_invariants objA mdA (by decide) (by decide)).2⟩

/-- C9 counterexample: the mesh object with two bitwise-identical
vertices — both referenced by its triangle — extracts to a vertex buffer
holding two duplicate tuples; no deduplication happens. -/
theorem C9_counterexample :
    (extract_data objDup).map MeshData.vertices
      = some [⟨0, 0, 0⟩, ⟨0, 0, 0⟩] ∧
    (extract_data objDup).map MeshData.indices = some [0, 1, 0] := by
  constructor <;> decide

/-- C9 amended: no deduplication is performed — the extracted vertex
buffer is the source mesh's vertex position list copied verbatim, so it
contains duplicate tuples exactly when the source mesh has
bitwise-equal vertices. -/
theorem C9_amended_vertices_verbatim (obj : BObject)
    (h : obj.type = "MESH") :
    (extract_data obj).map MeshData.vertices = some obj.mesh.vertices := by
  simp [extract_data, h]

/-- C9 amended, witnessed on the duplicate-vertex mesh. -/
theorem C9_amended_witness :
    (extract_data objDup).map MeshData.vertices
      = some objDup.mesh.vertices :=
  C9_amended_vertices_verbatim objDup rfl

/-- C10: for an image carrying a non-empty file path, resolution emits
the `file` record with the normalized absolute path, and the result is
the same whatever packed pixel data the image also carries — the
file-path branch shadows the embedded-data branch and the pixels are
never decoded. -/
theorem C10_filepath_precedence (pf : String → String) (img : BImage)
    (h : img.filepath ≠ "") :
    resolve_image pf img = some (.file (pf img.filepath) img.name) ∧
    ∀ (px : List ℚ) (pk : Bool),
      resolve_image pf { img with pixels := px, packed_file := pk }
        = some (.file (pf img.filepath) img.name) := by
  constructor
  · simp [resolve_image, h]
  · intro px pk
    simp [resolve_image, h]

/-- C10, witnessed on the image that has both a file path and packed
data. -/
theorem C10_witness :
    resolve_image idpf imgBoth
      = some (.file (idpf imgBoth.filepath) imgBoth.name) ∧
    resolve_image idpf { imgBoth with pixels := [], packed_file := false }
      = some (.file (idpf imgBoth.filepath) imgBoth.name) :=
  ⟨(C10_filepath_precedence idpf imgBoth (by decide)).1,
   (C10_filepath_precedence idpf imgBoth (by decide)).2 [] false⟩

end Gltfcmp
